import Mathlib

/-!
Shallow embedding of the servicenow-slg-demo core engines:
`src/backend/ai_router.py` (classify_request) and
`src/backend/workflow.py` (advance_workflow).
-/

/-- Substring test helper: does `pat` occur at the head of `t`? -/
def startsWithChars : List Char → List Char → Bool
  | [], _ => true
  | _ :: _, [] => false
  | p :: ps, t :: ts => p == t && startsWithChars ps ts

/-- Does `pat` occur anywhere inside `t` as a contiguous run? -/
def occursIn (pat : List Char) : List Char → Bool
  | [] => startsWithChars pat []
  | t :: ts => startsWithChars pat (t :: ts) || occursIn pat ts

/-- Python `kw in text` on strings: substring containment. -/
def strContains (text kw : String) : Bool :=
  occursIn kw.toList text.toList

/-- Python `str.lower()` (ASCII range), written on the character list so that
it evaluates by kernel reduction. -/
def strLower (s : String) : String :=
  ⟨s.data.map Char.toLower⟩

/-- `[kw for kw in keywords if kw in text]` from ai_router.py. -/
def foundKeywords (text : String) (kws : List String) : List String :=
  kws.filter (fun kw => strContains text kw)

/-- High-priority keywords (ai_router.py, priority_keywords dict). -/
def high_keywords : List String :=
  ["urgent", "emergency", "hazard", "safety", "dangerous"]

/-- Medium-priority keywords (ai_router.py, priority_keywords dict). -/
def medium_keywords : List String :=
  ["broken", "not working", "issue", "problem", "fault"]

/-- The priority tier table, in Python dict insertion order: High then Medium. -/
def priority_keywords : List (String × List String) :=
  [("High", high_keywords), ("Medium", medium_keywords)]

/-- Entry of the department rule table: keyword list plus fixed reason string. -/
structure DeptInfo where
  keywords : List String
  reason : String
deriving Repr, DecidableEq

def public_works_keywords : List String :=
  ["pothole", "streetlight", "sidewalk", "trash", "infrastructure", "road", "street"]

def licensing_keywords : List String :=
  ["permit", "license", "zoning", "business permit", "application"]

def it_keywords : List String :=
  ["email", "vpn", "laptop", "password", "computer", "network", "software"]

def hr_keywords : List String :=
  ["payroll", "benefits", "vacation", "insurance", "employee", "hr"]

/-- The department rule table, in Python dict insertion order. -/
def department_keywords : List (String × DeptInfo) :=
  [("Public Works",
    ⟨public_works_keywords, "Infrastructure and public works keywords detected"⟩),
   ("Licensing",
    ⟨licensing_keywords, "Permit and licensing keywords detected"⟩),
   ("IT",
    ⟨it_keywords, "Technology and IT support keywords detected"⟩),
   ("HR",
    ⟨hr_keywords, "Human resources and employee services keywords detected"⟩)]

/-- The `for prio_level, keywords in priority_keywords.items():` loop with
`break` on the first tier whose matched-keyword list is nonempty. -/
def scanTiers (text : String) : List (String × List String) → Option (String × List String)
  | [] => none
  | (lvl, kws) :: rest =>
    let found := foundKeywords text kws
    if found.isEmpty then scanTiers text rest else some (lvl, found)

/-- The `for dept, dept_info in department_keywords.items():` loop with
`break` on the first department whose matched-keyword list is nonempty. -/
def scanDepts (text : String) : List (String × DeptInfo) → Option (String × List String × String)
  | [] => none
  | (dept, info) :: rest =>
    let found := foundKeywords text info.keywords
    if found.isEmpty then scanDepts text rest else some (dept, found, info.reason)

/-- The confidence step (ai_router.py lines 91-100), on the pre-dedup count. -/
def confidenceFor (n : Nat) : Nat :=
  if n ≥ 3 then min 95 (85 + (n - 3) * 2)
  else if n ≥ 2 then 75 + (n - 2) * 5
  else if n ≥ 1 then 65 + (n - 1) * 5
  else 60

/-- Normalized text: `f"{summary} {description}".lower()`. -/
def normalizeText (summary description : String) : String :=
  strLower (summary ++ " " ++ description)

/-- Contribution of the priority pass to `keywords_detected`. -/
def prioPart (text : String) : List String :=
  match scanTiers text priority_keywords with
  | some (_, found) => found
  | none => []

/-- Contribution of the department pass to `keywords_detected`. -/
def deptPart (text : String) : List String :=
  match scanDepts text department_keywords with
  | some (_, found, _) => found
  | none => []

/-- The accumulated `keywords_detected` list before the final dedup:
the winning priority tier's matches followed by the winning department's
matches. -/
def accumulated_keywords (summary description : String) : List String :=
  prioPart (normalizeText summary description) ++
    deptPart (normalizeText summary description)

/-- Result dictionary returned by classify_request. -/
structure ClassificationResult where
  priority : String
  category : String
  department : String
  confidence : Nat
  keywords_detected : List String
  department_reason : String
  priority_reason : String
deriving Repr, DecidableEq

/-- classify_request from ai_router.py: keyword-driven priority, department,
category, confidence and rationale strings. `channel` is a parameter but is
never consulted. -/
def classify_request (summary description channel : String) : ClassificationResult :=
  let _ := channel
  let text := normalizeText summary description
  let prioRes := scanTiers text priority_keywords
  let priority :=
    match prioRes with
    | some (lvl, _) => lvl
    | none => "Low"
  let priority_reason :=
    match prioRes with
    | some (lvl, found) =>
        "Detected " ++ strLower lvl ++ " priority keywords: " ++
          String.intercalate ", " (found.take 3)
    | none => "No high-priority indicators found. Classified as Low priority."
  let deptRes := scanDepts text department_keywords
  let department :=
    match deptRes with
    | some (dept, _, _) => dept
    | none => "General Services"
  let category :=
    if department = "Public Works" then "Infrastructure"
    else if department = "Licensing" then "Permits & Licenses"
    else if department = "IT" then "Technology"
    else if department = "HR" then "Human Resources"
    else "General Services"
  let department_reason :=
    match deptRes with
    | some (_, _, reason) => reason
    | none => "No specific department keywords found. Routed to General Services."
  let keywords_all :=
    (match prioRes with
     | some (_, found) => found
     | none => []) ++
    (match deptRes with
     | some (_, found, _) => found
     | none => [])
  let confidence := confidenceFor keywords_all.length
  { priority := priority
    category := category
    department := department
    confidence := confidence
    keywords_detected := keywords_all.dedup
    department_reason := department_reason
    priority_reason := priority_reason }

/-- The fixed workflow state sequence (workflow.py line 3). -/
def WORKFLOW_STATES : List String :=
  ["NEW", "TRIAGE", "ASSIGNED", "IN_PROGRESS", "RESOLVED", "CLOSED"]

/-- Python `list.index`, returning `none` instead of raising ValueError. -/
def listIndex : List String → String → Option Nat
  | [], _ => none
  | x :: xs, s => if x = s then some 0 else (listIndex xs s).map (· + 1)

/-- advance_workflow from workflow.py: next state in the fixed sequence,
`CLOSED` stays `CLOSED`, unknown input falls open to `NEW`. -/
def advance_workflow (current_status : String) : String :=
  if current_status = "CLOSED" then "CLOSED"
  else
    match listIndex WORKFLOW_STATES current_status with
    | some i =>
        if i < WORKFLOW_STATES.length - 1 then
          (WORKFLOW_STATES.get? (i + 1)).getD "CLOSED"
        else "CLOSED"
    | none => "NEW"

/-- n-fold application of a string endomap (used to iterate the workflow). -/
def iterN (f : String → String) : Nat → String → String
  | 0, s => s
  | n + 1, s => iterN f n (f s)

/-- Reference confidence table, written from the spec wording (§4.2 Step 4):
n=0 gives 60, n=1 gives 65, n=2 gives 75, n>=3 gives min 95 (85+(n-3)*2). -/
def confidence_spec (n : Nat) : Nat :=
  if n = 0 then 60
  else if n = 1 then 65
  else if n = 2 then 75
  else min 95 (85 + (n - 3) * 2)

/-- Reference workflow successor, written from the spec wording (§4.1):
CLOSED is idempotent, each state at a non-last position steps to its
successor, the last state steps to CLOSED, unknown input resets to NEW. -/
def advance_spec (s : String) : String :=
  if s = "CLOSED" then "CLOSED"
  else if s = "NEW" then "TRIAGE"
  else if s = "TRIAGE" then "ASSIGNED"
  else if s = "ASSIGNED" then "IN_PROGRESS"
  else if s = "IN_PROGRESS" then "RESOLVED"
  else if s = "RESOLVED" then "CLOSED"
  else "NEW"

theorem scanTiers_eq (text : String) :
    scanTiers text priority_keywords =
      (if (foundKeywords text high_keywords).isEmpty then
        (if (foundKeywords text medium_keywords).isEmpty then none
         else some ("Medium", foundKeywords text medium_keywords))
       else some ("High", foundKeywords text high_keywords)) := rfl

theorem scanDepts_eq (text : String) :
    scanDepts text department_keywords =
      (if (foundKeywords text public_works_keywords).isEmpty then
        (if (foundKeywords text licensing_keywords).isEmpty then
          (if (foundKeywords text it_keywords).isEmpty then
            (if (foundKeywords text hr_keywords).isEmpty then none
             else some ("HR", foundKeywords text hr_keywords,
               "Human resources and employee services keywords detected"))
           else some ("IT", foundKeywords text it_keywords,
             "Technology and IT support keywords detected"))
         else some ("Licensing", foundKeywords text licensing_keywords,
           "Permit and licensing keywords detected"))
       else some ("Public Works", foundKeywords text public_works_keywords,
         "Infrastructure and public works keywords detected")) := rfl

theorem advance_eq_spec (s : String) : advance_workflow s = advance_spec s := by
  by_cases h1 : s = "NEW"
  · subst h1; decide
  by_cases h2 : s = "TRIAGE"
  · subst h2; decide
  by_cases h3 : s = "ASSIGNED"
  · subst h3; decide
  by_cases h4 : s = "IN_PROGRESS"
  · subst h4; decide
  by_cases h5 : s = "RESOLVED"
  · subst h5; decide
  by_cases h6 : s = "CLOSED"
  · subst h6; decide
  simp [advance_workflow, advance_spec, WORKFLOW_STATES, listIndex,
    h1, h2, h3, h4, h5, h6,
    Ne.symm h1, Ne.symm h2, Ne.symm h3, Ne.symm h4, Ne.symm h5, Ne.symm h6]

theorem advance_mem_states (s : String) : advance_workflow s ∈ WORKFLOW_STATES := by
  rw [advance_eq_spec]
  unfold advance_spec WORKFLOW_STATES
  split_ifs <;> decide

/-- C4: advance_workflow agrees with the total reference function of §4.1 on
every input string: CLOSED maps to CLOSED, a state at a non-last position of
the fixed sequence maps to its successor, the last state maps to CLOSED, and
every unrecognized string maps to NEW without error. -/
theorem C4_advance_workflow_refines_spec (s : String) :
    advance_workflow s = advance_spec s :=
  advance_eq_spec s

theorem C4_witness :
    advance_workflow "bogus-status" = advance_spec "bogus-status" :=
  C4_advance_workflow_refines_spec "bogus-status"

set_option maxHeartbeats 1000000 in
/-- C10: from any input string, six applications of advance_workflow reach
CLOSED; every output of advance_workflow is one of the six workflow states;
and CLOSED is a fixed point, so further applications stay at CLOSED. -/
theorem C10_iterate_reaches_closed (s : String) :
    iterN advance_workflow 6 s = "CLOSED" ∧
      advance_workflow s ∈ WORKFLOW_STATES ∧
      advance_workflow "CLOSED" = "CLOSED" := by
  refine ⟨?_, advance_mem_states s, by decide⟩
  by_cases h1 : s = "NEW"
  · subst h1; decide
  by_cases h2 : s = "TRIAGE"
  · subst h2; decide
  by_cases h3 : s = "ASSIGNED"
  · subst h3; decide
  by_cases h4 : s = "IN_PROGRESS"
  · subst h4; decide
  by_cases h5 : s = "RESOLVED"
  · subst h5; decide
  by_cases h6 : s = "CLOSED"
  · subst h6; decide
  have hnew : advance_workflow s = "NEW" := by
    rw [advance_eq_spec]
    simp [advance_spec, h1, h2, h3, h4, h5, h6]
  show iterN advance_workflow 5 (advance_workflow s) = "CLOSED"
  rw [hnew]
  decide

theorem C10_witness :
    iterN advance_workflow 6 "garbage" = "CLOSED" ∧
      advance_workflow "garbage" ∈ WORKFLOW_STATES ∧
      advance_workflow "CLOSED" = "CLOSED" :=
  C10_iterate_reaches_closed "garbage"

/-- C5: classification ignores the channel argument entirely: for any two
channel values the results agree in every field. -/
theorem C5_channel_independent (summary description c1 c2 : String) :
    classify_request summary description c1 =
      classify_request summary description c2 := rfl

theorem C5_witness :
    classify_request "a" "b" "Phone" = classify_request "a" "b" "Walk-in" :=
  C5_channel_independent "a" "b" "Phone" "Walk-in"

theorem prioPart_eq (text : String) :
    prioPart text =
      (if (foundKeywords text high_keywords).isEmpty then
        (if (foundKeywords text medium_keywords).isEmpty then []
         else foundKeywords text medium_keywords)
       else foundKeywords text high_keywords) := by
  unfold prioPart
  rw [scanTiers_eq]
  split_ifs <;> rfl

theorem deptPart_eq (text : String) :
    deptPart text =
      (if (foundKeywords text public_works_keywords).isEmpty then
        (if (foundKeywords text licensing_keywords).isEmpty then
          (if (foundKeywords text it_keywords).isEmpty then
            (if (foundKeywords text hr_keywords).isEmpty then []
             else foundKeywords text hr_keywords)
           else foundKeywords text it_keywords)
         else foundKeywords text licensing_keywords)
       else foundKeywords text public_works_keywords) := by
  unfold deptPart
  rw [scanDepts_eq]
  split_ifs <;> rfl

theorem prioPart_subset_keywords (summary description channel : String) :
    prioPart (normalizeText summary description) ⊆
      (classify_request summary description channel).keywords_detected := by
  intro a ha
  show a ∈ (prioPart (normalizeText summary description) ++
      deptPart (normalizeText summary description)).dedup
  rw [List.mem_dedup]
  exact List.mem_append_left _ ha

theorem deptPart_subset_keywords (summary description channel : String) :
    deptPart (normalizeText summary description) ⊆
      (classify_request summary description channel).keywords_detected := by
  intro a ha
  show a ∈ (prioPart (normalizeText summary description) ++
      deptPart (normalizeText summary description)).dedup
  rw [List.mem_dedup]
  exact List.mem_append_right _ ha

theorem classify_confidence_eq (summary description channel : String) :
    (classify_request summary description channel).confidence =
      confidenceFor (accumulated_keywords summary description).length := rfl

theorem classify_keywords_eq (summary description channel : String) :
    (classify_request summary description channel).keywords_detected =
      (accumulated_keywords summary description).dedup := rfl

theorem confidenceFor_eq_spec (n : Nat) : confidenceFor n = confidence_spec n := by
  unfold confidenceFor confidence_spec
  split_ifs <;> omega

theorem confidenceFor_bounds (n : Nat) :
    60 ≤ confidenceFor n ∧ confidenceFor n ≤ 95 := by
  unfold confidenceFor
  split_ifs <;> omega

theorem prioPart_nodup (text : String) : (prioPart text).Nodup := by
  rw [prioPart_eq]
  unfold foundKeywords
  split_ifs
  · exact List.nodup_nil
  · exact List.Nodup.filter _ (by decide)
  · exact List.Nodup.filter _ (by decide)

theorem deptPart_nodup (text : String) : (deptPart text).Nodup := by
  rw [deptPart_eq]
  unfold foundKeywords
  split_ifs
  · exact List.nodup_nil
  · exact List.Nodup.filter _ (by decide)
  · exact List.Nodup.filter _ (by decide)
  · exact List.Nodup.filter _ (by decide)
  · exact List.Nodup.filter _ (by decide)

theorem prioPart_subset_pool (text : String) :
    prioPart text ⊆ high_keywords ++ medium_keywords := by
  rw [prioPart_eq]
  split_ifs
  · exact List.nil_subset _
  · intro a ha
    exact List.mem_append_right _ (List.filter_subset' _ ha)
  · intro a ha
    exact List.mem_append_left _ (List.filter_subset' _ ha)

theorem deptPart_subset_pool (text : String) :
    deptPart text ⊆
      public_works_keywords ++ (licensing_keywords ++ (it_keywords ++ hr_keywords)) := by
  rw [deptPart_eq]
  split_ifs
  · exact List.nil_subset _
  · intro a ha
    exact List.mem_append_right _ (List.mem_append_right _
      (List.mem_append_right _ (List.filter_subset' _ ha)))
  · intro a ha
    exact List.mem_append_right _ (List.mem_append_right _
      (List.mem_append_left _ (List.filter_subset' _ ha)))
  · intro a ha
    exact List.mem_append_right _ (List.mem_append_left _ (List.filter_subset' _ ha))
  · intro a ha
    exact List.mem_append_left _ (List.filter_subset' _ ha)

set_option maxHeartbeats 1000000 in
theorem priority_pool_disjoint_dept_pool :
    ∀ a ∈ high_keywords ++ medium_keywords,
      a ∉ public_works_keywords ++ (licensing_keywords ++ (it_keywords ++ hr_keywords)) := by
  decide

theorem accumulated_nodup (summary description : String) :
    (accumulated_keywords summary description).Nodup := by
  unfold accumulated_keywords
  refine List.Nodup.append (prioPart_nodup _) (deptPart_nodup _) ?_
  intro a ha hb
  exact priority_pool_disjoint_dept_pool a (prioPart_subset_pool _ ha)
    (deptPart_subset_pool _ hb)

/-- C1: the priority tiers are evaluated in the fixed order High then Medium,
each by substring containment against the normalized lower-cased text; the
first tier with at least one match sets the priority, all of that tier's
matches end up in the returned keyword set, and the rationale is exactly
"Detected <tier-lowercase> priority keywords: <first up to 3 matches,
comma-joined>"; with no match the priority is Low with the fixed rationale.
A text matching both tiers therefore yields High. -/
theorem C1_priority_tier_order (summary description channel : String) :
    ((classify_request summary description channel).priority =
      if foundKeywords (normalizeText summary description) high_keywords = [] then
        (if foundKeywords (normalizeText summary description) medium_keywords = [] then "Low"
         else "Medium")
      else "High") ∧
    ((classify_request summary description channel).priority_reason =
      if foundKeywords (normalizeText summary description) high_keywords = [] then
        (if foundKeywords (normalizeText summary description) medium_keywords = [] then
           "No high-priority indicators found. Classified as Low priority."
         else "Detected medium priority keywords: " ++
           String.intercalate ", "
             ((foundKeywords (normalizeText summary description) medium_keywords).take 3))
      else "Detected high priority keywords: " ++
        String.intercalate ", "
          ((foundKeywords (normalizeText summary description) high_keywords).take 3)) ∧
    ((if foundKeywords (normalizeText summary description) high_keywords = [] then
        foundKeywords (normalizeText summary description) medium_keywords
      else foundKeywords (normalizeText summary description) high_keywords) ⊆
      (classify_request summary description channel).keywords_detected) := by
  refine ⟨?_, ?_, ?_⟩
  · by_cases hh : foundKeywords (normalizeText summary description) high_keywords = []
    · by_cases hm : foundKeywords (normalizeText summary description) medium_keywords = []
      · simp [classify_request, scanTiers_eq, List.isEmpty_iff, hh, hm]
      · simp [classify_request, scanTiers_eq, List.isEmpty_iff, hh, hm]
    · simp [classify_request, scanTiers_eq, List.isEmpty_iff, hh]
  · by_cases hh : foundKeywords (normalizeText summary description) high_keywords = []
    · by_cases hm : foundKeywords (normalizeText summary description) medium_keywords = []
      · simp [classify_request, scanTiers_eq, List.isEmpty_iff, hh, hm]
      · simp [classify_request, scanTiers_eq, List.isEmpty_iff, hh, hm]
        congr 1
    · simp [classify_request, scanTiers_eq, List.isEmpty_iff, hh]
      congr 1
  · have h := prioPart_subset_keywords summary description channel
    rw [prioPart_eq] at h
    by_cases hh : foundKeywords (normalizeText summary description) high_keywords = []
    · by_cases hm : foundKeywords (normalizeText summary description) medium_keywords = []
      · rw [if_pos hh, hm]
        exact List.nil_subset _
      · rw [if_pos hh]
        simpa [List.isEmpty_iff, hh, hm] using h
    · rw [if_neg hh]
      simpa [List.isEmpty_iff, hh] using h

theorem C1_witness :
    (classify_request "urgent broken" "" "Phone").priority =
        (if foundKeywords (normalizeText "urgent broken" "") high_keywords = [] then
          (if foundKeywords (normalizeText "urgent broken" "") medium_keywords = [] then "Low"
           else "Medium")
         else "High") ∧
      (classify_request "urgent broken" "" "Phone").priority_reason =
        (if foundKeywords (normalizeText "urgent broken" "") high_keywords = [] then
          (if foundKeywords (normalizeText "urgent broken" "") medium_keywords = [] then
             "No high-priority indicators found. Classified as Low priority."
           else "Detected medium priority keywords: " ++
             String.intercalate ", "
               ((foundKeywords (normalizeText "urgent broken" "") medium_keywords).take 3))
         else "Detected high priority keywords: " ++
           String.intercalate ", "
             ((foundKeywords (normalizeText "urgent broken" "") high_keywords).take 3)) ∧
      ((if foundKeywords (normalizeText "urgent broken" "") high_keywords = [] then
          foundKeywords (normalizeText "urgent broken" "") medium_keywords
        else foundKeywords (normalizeText "urgent broken" "") high_keywords) ⊆
        (classify_request "urgent broken" "" "Phone").keywords_detected) :=
  C1_priority_tier_order "urgent broken" "" "Phone"

/-- C2: the four department keyword sets are evaluated in the fixed order
Public Works, Licensing, IT, HR by substring containment with first-match
short-circuit; the winner's matches end up in the returned keyword set, its
fixed reason string is returned, and category is derived 1:1 from the
department; with no match department and category are General Services with
the fixed reason string. -/
theorem C2_department_order (summary description channel : String) :
    ((classify_request summary description channel).department =
      if foundKeywords (normalizeText summary description) public_works_keywords = [] then
        (if foundKeywords (normalizeText summary description) licensing_keywords = [] then
          (if foundKeywords (normalizeText summary description) it_keywords = [] then
            (if foundKeywords (normalizeText summary description) hr_keywords = [] then
              "General Services"
             else "HR")
           else "IT")
         else "Licensing")
      else "Public Works") ∧
    ((classify_request summary description channel).category =
      if foundKeywords (normalizeText summary description) public_works_keywords = [] then
        (if foundKeywords (normalizeText summary description) licensing_keywords = [] then
          (if foundKeywords (normalizeText summary description) it_keywords = [] then
            (if foundKeywords (normalizeText summary description) hr_keywords = [] then
              "General Services"
             else "Human Resources")
           else "Technology")
         else "Permits & Licenses")
      else "Infrastructure") ∧
    ((classify_request summary description channel).department_reason =
      if foundKeywords (normalizeText summary description) public_works_keywords = [] then
        (if foundKeywords (normalizeText summary description) licensing_keywords = [] then
          (if foundKeywords (normalizeText summary description) it_keywords = [] then
            (if foundKeywords (normalizeText summary description) hr_keywords = [] then
              "No specific department keywords found. Routed to General Services."
             else "Human resources and employee services keywords detected")
           else "Technology and IT support keywords detected")
         else "Permit and licensing keywords detected")
      else "Infrastructure and public works keywords detected") ∧
    ((if foundKeywords (normalizeText summary description) public_works_keywords = [] then
        (if foundKeywords (normalizeText summary description) licensing_keywords = [] then
          (if foundKeywords (normalizeText summary description) it_keywords = [] then
            (if foundKeywords (normalizeText summary description) hr_keywords = [] then []
             else foundKeywords (normalizeText summary description) hr_keywords)
           else foundKeywords (normalizeText summary description) it_keywords)
         else foundKeywords (normalizeText summary description) licensing_keywords)
      else foundKeywords (normalizeText summary description) public_works_keywords) ⊆
      (classify_request summary description channel).keywords_detected) := by
  refine ⟨?_, ?_, ?_, ?_⟩
  · by_cases hpw : foundKeywords (normalizeText summary description) public_works_keywords = []
    · by_cases hlic : foundKeywords (normalizeText summary description) licensing_keywords = []
      · by_cases hit : foundKeywords (normalizeText summary description) it_keywords = []
        · by_cases hhr : foundKeywords (normalizeText summary description) hr_keywords = []
          · simp [classify_request, scanDepts_eq, List.isEmpty_iff, hpw, hlic, hit, hhr]
          · simp [classify_request, scanDepts_eq, List.isEmpty_iff, hpw, hlic, hit, hhr]
        · simp [classify_request, scanDepts_eq, List.isEmpty_iff, hpw, hlic, hit]
      · simp [classify_request, scanDepts_eq, List.isEmpty_iff, hpw, hlic]
    · simp [classify_request, scanDepts_eq, List.isEmpty_iff, hpw]
  · by_cases hpw : foundKeywords (normalizeText summary description) public_works_keywords = []
    · by_cases hlic : foundKeywords (normalizeText summary description) licensing_keywords = []
      · by_cases hit : foundKeywords (normalizeText summary description) it_keywords = []
        · by_cases hhr : foundKeywords (normalizeText summary description) hr_keywords = []
          · simp [classify_request, scanDepts_eq, List.isEmpty_iff, hpw, hlic, hit, hhr]
          · simp [classify_request, scanDepts_eq, List.isEmpty_iff, hpw, hlic, hit, hhr]
        · simp [classify_request, scanDepts_eq, List.isEmpty_iff, hpw, hlic, hit]
      · simp [classify_request, scanDepts_eq, List.isEmpty_iff, hpw, hlic]
    · simp [classify_request, scanDepts_eq, List.isEmpty_iff, hpw]
  · by_cases hpw : foundKeywords (normalizeText summary description) public_works_keywords = []
    · by_cases hlic : foundKeywords (normalizeText summary description) licensing_keywords = []
      · by_cases hit : foundKeywords (normalizeText summary description) it_keywords = []
        · by_cases hhr : foundKeywords (normalizeText summary description) hr_keywords = []
          · simp [classify_request, scanDepts_eq, List.isEmpty_iff, hpw, hlic, hit, hhr]
          · simp [classify_request, scanDepts_eq, List.isEmpty_iff, hpw, hlic, hit, hhr]
        · simp [classify_request, scanDepts_eq, List.isEmpty_iff, hpw, hlic, hit]
      · simp [classify_request, scanDepts_eq, List.isEmpty_iff, hpw, hlic]
    · simp [classify_request, scanDepts_eq, List.isEmpty_iff, hpw]
  · have h := deptPart_subset_keywords summary description channel
    rw [deptPart_eq] at h
    by_cases hpw : foundKeywords (normalizeText summary description) public_works_keywords = []
    · by_cases hlic : foundKeywords (normalizeText summary description) licensing_keywords = []
      · by_cases hit : foundKeywords (normalizeText summary description) it_keywords = []
        · by_cases hhr : foundKeywords (normalizeText summary description) hr_keywords = []
          · rw [if_pos hpw, if_pos hlic, if_pos hit, if_pos hhr]
            exact List.nil_subset _
          · rw [if_pos hpw, if_pos hlic, if_pos hit, if_neg hhr]
            simpa [List.isEmpty_iff, hpw, hlic, hit, hhr] using h
        · rw [if_pos hpw, if_pos hlic, if_neg hit]
          simpa [List.isEmpty_iff, hpw, hlic, hit] using h
      · rw [if_pos hpw, if_neg hlic]
        simpa [List.isEmpty_iff, hpw, hlic] using h
    · rw [if_neg hpw]
      simpa [List.isEmpty_iff, hpw] using h

theorem C2_witness :
    ((classify_request "pothole" "" "Phone").department =
      if foundKeywords (normalizeText "pothole" "") public_works_keywords = [] then
        (if foundKeywords (normalizeText "pothole" "") licensing_keywords = [] then
          (if foundKeywords (normalizeText "pothole" "") it_keywords = [] then
            (if foundKeywords (normalizeText "pothole" "") hr_keywords = [] then
              "General Services"
             else "HR")
           else "IT")
         else "Licensing")
      else "Public Works") ∧
    ((classify_request "pothole" "" "Phone").category =
      if foundKeywords (normalizeText "pothole" "") public_works_keywords = [] then
        (if foundKeywords (normalizeText "pothole" "") licensing_keywords = [] then
          (if foundKeywords (normalizeText "pothole" "") it_keywords = [] then
            (if foundKeywords (normalizeText "pothole" "") hr_keywords = [] then
              "General Services"
             else "Human Resources")
           else "Technology")
         else "Permits & Licenses")
      else "Infrastructure") ∧
    ((classify_request "pothole" "" "Phone").department_reason =
      if foundKeywords (normalizeText "pothole" "") public_works_keywords = [] then
        (if foundKeywords (normalizeText "pothole" "") licensing_keywords = [] then
          (if foundKeywords (normalizeText "pothole" "") it_keywords = [] then
            (if foundKeywords (normalizeText "pothole" "") hr_keywords = [] then
              "No specific department keywords found. Routed to General Services."
             else "Human resources and employee services keywords detected")
           else "Technology and IT support keywords detected")
         else "Permit and licensing keywords detected")
      else "Infrastructure and public works keywords detected") ∧
    ((if foundKeywords (normalizeText "pothole" "") public_works_keywords = [] then
        (if foundKeywords (normalizeText "pothole" "") licensing_keywords = [] then
          (if foundKeywords (normalizeText "pothole" "") it_keywords = [] then
            (if foundKeywords (normalizeText "pothole" "") hr_keywords = [] then []
             else foundKeywords (normalizeText "pothole" "") hr_keywords)
           else foundKeywords (normalizeText "pothole" "") it_keywords)
         else foundKeywords (normalizeText "pothole" "") licensing_keywords)
      else foundKeywords (normalizeText "pothole" "") public_works_keywords) ⊆
      (classify_request "pothole" "" "Phone").keywords_detected) :=
  C2_department_order "pothole" "" "Phone"

/-- C3: the returned confidence is the exact step table of the pre-dedup
accumulated keyword count n over both passes: n=0 gives 60, n=1 gives 65,
n=2 gives 75, n>=3 gives min 95 (85+(n-3)*2). -/
theorem C3_confidence_step_table (summary description channel : String) :
    (classify_request summary description channel).confidence =
      confidence_spec (accumulated_keywords summary description).length := by
  rw [classify_confidence_eq, confidenceFor_eq_spec]

theorem C3_witness :
    (classify_request "My laptop is broken" "password issue" "Phone").confidence =
      confidence_spec
        (accumulated_keywords "My laptop is broken" "password issue").length :=
  C3_confidence_step_table "My laptop is broken" "password issue" "Phone"

/-- C6: for every input the priority is one of High, Medium, Low, the
department is one of the five fixed values, and the confidence lies in
[60, 95]. -/
theorem C6_result_ranges (summary description channel : String) :
    (classify_request summary description channel).priority ∈
        (["High", "Medium", "Low"] : List String) ∧
      (classify_request summary description channel).department ∈
        (["Public Works", "Licensing", "IT", "HR", "General Services"] : List String) ∧
      60 ≤ (classify_request summary description channel).confidence ∧
      (classify_request summary description channel).confidence ≤ 95 := by
  refine ⟨?_, ?_, ?_, ?_⟩
  · by_cases hh : foundKeywords (normalizeText summary description) high_keywords = []
    · by_cases hm : foundKeywords (normalizeText summary description) medium_keywords = []
      · simp [classify_request, scanTiers_eq, List.isEmpty_iff, hh, hm]
      · simp [classify_request, scanTiers_eq, List.isEmpty_iff, hh, hm]
    · simp [classify_request, scanTiers_eq, List.isEmpty_iff, hh]
  · by_cases hpw : foundKeywords (normalizeText summary description) public_works_keywords = []
    · by_cases hlic : foundKeywords (normalizeText summary description) licensing_keywords = []
      · by_cases hit : foundKeywords (normalizeText summary description) it_keywords = []
        · by_cases hhr : foundKeywords (normalizeText summary description) hr_keywords = []
          · simp [classify_request, scanDepts_eq, List.isEmpty_iff, hpw, hlic, hit, hhr]
          · simp [classify_request, scanDepts_eq, List.isEmpty_iff, hpw, hlic, hit, hhr]
        · simp [classify_request, scanDepts_eq, List.isEmpty_iff, hpw, hlic, hit]
      · simp [classify_request, scanDepts_eq, List.isEmpty_iff, hpw, hlic]
    · simp [classify_request, scanDepts_eq, List.isEmpty_iff, hpw]
  · rw [classify_confidence_eq]
    exact (confidenceFor_bounds _).1
  · rw [classify_confidence_eq]
    exact (confidenceFor_bounds _).2

theorem C6_witness :
    (classify_request "urgent pothole" "hr email" "Phone").priority ∈
        (["High", "Medium", "Low"] : List String) ∧
      (classify_request "urgent pothole" "hr email" "Phone").department ∈
        (["Public Works", "Licensing", "IT", "HR", "General Services"] : List String) ∧
      60 ≤ (classify_request "urgent pothole" "hr email" "Phone").confidence ∧
      (classify_request "urgent pothole" "hr email" "Phone").confidence ≤ 95 :=
  C6_result_ranges "urgent pothole" "hr email" "Phone"

set_option maxHeartbeats 4000000 in
/-- C7: classify never fails; on empty summary and description every field
takes its default: Low priority, General Services department and category,
confidence 60, and an empty keyword set. -/
theorem C7_empty_input_defaults :
    (classify_request "" "" "Phone").priority = "Low" ∧
      (classify_request "" "" "Phone").department = "General Services" ∧
      (classify_request "" "" "Phone").category = "General Services" ∧
      (classify_request "" "" "Phone").confidence = 60 ∧
      (classify_request "" "" "Phone").keywords_detected = [] := by
  decide

set_option maxHeartbeats 4000000 in
/-- C8: the worked example: "My laptop is broken" / "password issue" matches
Medium via broken and issue, IT via laptop and password, so the result is
Medium priority, IT department, Technology category, and with the pre-dedup
count n = 4 the confidence is min 95 (85 + 2) = 87. -/
theorem C8_laptop_example :
    (classify_request "My laptop is broken" "password issue" "Phone").priority =
        "Medium" ∧
      (classify_request "My laptop is broken" "password issue" "Phone").department = "IT" ∧
      (classify_request "My laptop is broken" "password issue" "Phone").category =
        "Technology" ∧
      (classify_request "My laptop is broken" "password issue" "Phone").confidence = 87 ∧
      (classify_request "My laptop is broken" "password issue" "Phone").keywords_detected =
        ["broken", "issue", "laptop", "password"] ∧
      (accumulated_keywords "My laptop is broken" "password issue").length = 4 := by
  decide

/-- C9: the accumulated keyword list never holds a duplicate, so the final
deduplication is the identity: the returned keyword set equals the pre-dedup
list, its size equals the count n that drives the confidence, and the
confidence equals the step table applied to the size of the returned set. -/
theorem C9_dedup_is_identity (summary description channel : String) :
    (accumulated_keywords summary description).Nodup ∧
      (classify_request summary description channel).keywords_detected =
        accumulated_keywords summary description ∧
      (classify_request summary description channel).confidence =
        confidence_spec
          (classify_request summary description channel).keywords_detected.length := by
  have hnd := accumulated_nodup summary description
  have hkw : (classify_request summary description channel).keywords_detected =
      accumulated_keywords summary description := by
    rw [classify_keywords_eq, List.dedup_eq_self.mpr hnd]
  refine ⟨hnd, hkw, ?_⟩
  rw [hkw, classify_confidence_eq, confidenceFor_eq_spec]

theorem C9_witness :
    (accumulated_keywords "streetlight broken" "urgent issue").Nodup ∧
      (classify_request "streetlight broken" "urgent issue" "Phone").keywords_detected =
        accumulated_keywords "streetlight broken" "urgent issue" ∧
      (classify_request "streetlight broken" "urgent issue" "Phone").confidence =
        confidence_spec
          (classify_request "streetlight broken" "urgent issue"
            "Phone").keywords_detected.length :=
  C9_dedup_is_identity "streetlight broken" "urgent issue" "Phone"
